import Mathlib

/-!
Shallow embedding of `get_legistar_content_uris` from
`src/python/cdp_usa_wa_city_olympia_backend/scraper.py`.

External collaborators (the `cdp_scrapers` library, `urllib`, BeautifulSoup)
are modelled as opaque oracles bundled in an `Env` record; the resolver's own
control flow, string processing and pattern matching are translated directly
from the source.  The model returns the outcome (a returned status tuple, or
one of the exceptions the source can raise or let propagate) together with a
trace of the outbound network calls it makes, so that frame conditions such as
"no network access" are provable.
-/

namespace Olympia

/-- Key constant imported from `cdp_scrapers.legistar_utils`
(the Legistar `EventVideoPath` field). -/
def LEGISTAR_SESSION_VIDEO_URI : String := "EventVideoPath"

/-- Key constant imported from `cdp_scrapers.legistar_utils`
(the Legistar `EventInSiteURL` field). -/
def LEGISTAR_EV_SITE_URL : String := "EventInSiteURL"

/-- Model of `cdp_scrapers.types.ContentURIs`: a video URI with an optional
caption. -/
structure ContentURIs where
  video_uri : String
  caption_uri : Option String
deriving DecidableEq, Repr

/-- Model of `ContentUriScrapeResult.Status` from
`cdp_scrapers.legistar_utils`. -/
inductive Status where
  | Ok
  | UnrecognizedPatternError
  | ResourceAccessError
deriving DecidableEq, Repr

/-- An `<a>` element as seen by BeautifulSoup: its `id` attribute and its
`onclick` attribute (`none` when the attribute is absent). -/
structure Anchor where
  id : String
  onclick : Option String
deriving DecidableEq, Repr

/-- A fetched and parsed detail page (the `soup`): its text content
(`soup.text`) and its anchor elements in document order. -/
structure Page where
  text : String
  anchors : List Anchor
deriving DecidableEq, Repr

/-- Transport-layer failures of `urllib`.  In Python `HTTPError` is a subclass of
`URLError`; here `urlError` stands for a `URLError` that is not an
`HTTPError`, and `httpError` for an `HTTPError`. -/
inductive TransportError where
  | urlError
  | httpError
deriving DecidableEq, Repr

/-- Result of `urlopen` + `resp.read()` + `BeautifulSoup`: a parsed page, or a
transport-layer failure raised by `urlopen`. -/
inductive FetchResult where
  | ok (page : Page)
  | transportErr (e : TransportError)
deriving DecidableEq, Repr

/-- Result of calling `cdp_scrapers.legistar_utils.parse_video_page_url`: it
returns `Optional[List[ContentURIs]]`, or raises a transport failure
(an `HTTPError`, or a plain `URLError` that is not an `HTTPError`). -/
inductive DelegateResult where
  | ok (uris : Option (List ContentURIs))
  | raiseHttpError
  | raiseUrlError
deriving DecidableEq, Repr

/-- The external collaborators, as oracles: the page fetch (`urlopen` composed
with BeautifulSoup parsing), the delegate `parse_video_page_url`, the string
normalizer `str_simplified`, and `urlsplit(url).netloc` (`none` models the
`ValueError` branch). -/
structure Env where
  urlopen : String → FetchResult
  parse_video_page_url : String → String → DelegateResult
  str_simplified : String → String
  urlsplit_netloc : String → Option String

/-- A Legistar event record: a Python dict restricted to the two keys the
resolver reads.  A key maps to `none` (Python `None`) or to a string; an
absent key raises `KeyError` on subscript access. -/
abbrev EventRecord := List (String × Option String)

/-- Python truthiness of a dict value that is `None` or a string:
`None` and `""` are falsy, every other string is truthy. -/
def pyTruthy : Option String → Bool
  | none => false
  | some s => s != ""

/-- One outbound network call made by the resolver. -/
inductive NetCall where
  | urlopenCall (url : String)
  | delegateCall (url : String) (client : String)
deriving DecidableEq, Repr

/-- The observable outcome of one invocation: a returned
`(status, uris)` tuple, or one of the exceptions the source raises
(`KeyError`, `ConnectionError`, `NotImplementedError`), or an uncaught
`URLError` propagating out of the delegate call at line 166 (only
`HTTPError` is caught there). -/
inductive Outcome where
  | result (status : Status) (uris : Option (List ContentURIs))
  | keyError (key : String)
  | connectionError (msg : String)
  | notImplementedError (msg : String)
  | uncaughtUrlError
deriving DecidableEq, Repr

/-- Python whitespace characters (the ASCII ones `\s`/`\S` are built from). -/
def isPyWhitespace (c : Char) : Bool :=
  c == ' ' || c == '\t' || c == '\n' || c == '\r' || c == '\x0b' || c == '\x0c'

/-- Strip a literal off the front of a character list, returning the rest. -/
def stripLit : List Char → List Char → Option (List Char)
  | [], cs => some cs
  | _ :: _, [] => none
  | l :: ls, c :: cs => if l = c then stripLit ls cs else none

/-- Does `\S*_hypVideo` match a prefix of the list (with backtracking)? -/
def matchHyp : List Char → Bool
  | [] => (stripLit "_hypVideo".data []).isSome
  | c :: rest =>
    (stripLit "_hypVideo".data (c :: rest)).isSome ||
      (!isPyWhitespace c && matchHyp rest)

/-- Does `\S*_ContentPlaceHolder\S*_hypVideo` match a prefix of the list? -/
def matchCPH : List Char → Bool
  | [] =>
    (match stripLit "_ContentPlaceHolder".data [] with
     | some rest => matchHyp rest
     | none => false)
  | c :: rest =>
    (match stripLit "_ContentPlaceHolder".data (c :: rest) with
     | some r => matchHyp r
     | none => false) ||
      (!isPyWhitespace c && matchCPH rest)

/-- Does the full pattern `ct\S*_ContentPlaceHolder\S*_hypVideo` match
starting exactly at the head of the list? -/
def matchHypVideoAt (cs : List Char) : Bool :=
  match stripLit "ct".data cs with
  | some rest => matchCPH rest
  | none => false

/-- Search semantics of `re.compile(r"ct\S*_ContentPlaceHolder\S*_hypVideo")`
applied by BeautifulSoup via `.search`: the pattern matches at some
position of the string. -/
def idMatchesHypVideo (s : String) : Bool :=
  go s.data
where
  go : List Char → Bool
    | [] => matchHypVideoAt []
    | c :: rest => matchHypVideoAt (c :: rest) || go rest

/-- The element filter of `soup.find("a", id=re.compile(...), onclick=True)`:
the id attribute matches the pattern and the onclick attribute is present. -/
def anchorMatches (a : Anchor) : Bool :=
  idMatchesHypVideo a.id && a.onclick.isSome

/-- Model of `soup.find(...)`: the first anchor (in document order) passing
the filter. -/
def findVideoAnchor (anchors : List Anchor) : Option Anchor :=
  anchors.find? anchorMatches

/-- Index of the first occurrence of `sub` in the list, if any. -/
def pyFindAux (sub : List Char) : List Char → Nat → Option Nat
  | [], i => if sub.isEmpty then some i else none
  | c :: rest, i =>
    if sub.isPrefixOf (c :: rest) then some i else pyFindAux sub rest (i + 1)

/-- Python `s.find(sub)`: index of the first occurrence, or `-1`. -/
def pyFind (s sub : String) : Int :=
  match pyFindAux sub.data s.data 0 with
  | some i => (i : Int)
  | none => -1

/-- Python `sub in s` (substring containment). -/
def pyContains (s sub : String) : Bool :=
  (pyFindAux sub.data s.data 0).isSome

/-- Python `s.lower()`: lower-case every character (ASCII case folding
suffices for this model). -/
def pyLower (s : String) : String :=
  String.mk (s.data.map Char.toLower)

/-- Python slice `s[a:b]` with `Int` bounds: negative indices count from the
end, then the bounds are clamped to `[0, len]`. -/
def pySlice (s : String) (a b : Int) : String :=
  let n : Int := (s.length : Int)
  let lo : Int := if a < 0 then max (n + a) 0 else min a n
  let hi : Int := if b < 0 then max (n + b) 0 else min b n
  String.mk ((s.data.drop lo.toNat).take (hi.toNat - lo.toNat))

/-- Lines 159-162 of the source: take the onclick text, find the first `'`
and the following `',`, slice between them, and prepend the fixed scheme,
the client id and the fixed domain suffix. -/
def buildVideoPageUrl (client : String) (onclickText : String) : String :=
  let start := pyFind onclickText "'" + 1
  let stop := pyFind onclickText "',"
  "https://" ++ client ++ ".legistar.com/" ++ pySlice onclickText start stop

/-- Shallow embedding of `get_legistar_content_uris` (scraper.py lines
71-176).  Returns the outcome together with the trace of outbound network
calls, in order. -/
def get_legistar_content_uris (env : Env) (client : String)
    (legistar_ev : EventRecord) : Outcome × List NetCall :=
  match legistar_ev.lookup LEGISTAR_SESSION_VIDEO_URI with
  | none => (Outcome.keyError LEGISTAR_SESSION_VIDEO_URI, [])
  | some videoField =>
    if pyTruthy videoField then
      (Outcome.result Status.Ok
        (some [{ video_uri := env.str_simplified (videoField.getD "")
                 caption_uri := none }]), [])
    else
      match legistar_ev.lookup LEGISTAR_EV_SITE_URL with
      | none => (Outcome.keyError LEGISTAR_EV_SITE_URL, [])
      | some siteField =>
        if !pyTruthy siteField then
          (Outcome.result Status.UnrecognizedPatternError none, [])
        else
          let siteUrl := siteField.getD ""
          match env.urlopen siteUrl with
          | FetchResult.transportErr _ =>
            (Outcome.result Status.ResourceAccessError none,
             [NetCall.urlopenCall siteUrl])
          | FetchResult.ok page =>
            if pyContains (pyLower page.text) "server error" then
              let netloc :=
                match env.urlsplit_netloc siteUrl with
                | some n => n
                | none => siteUrl
              (Outcome.connectionError
                (netloc ++ " appears to be down: " ++ env.str_simplified page.text),
               [NetCall.urlopenCall siteUrl])
            else
              match findVideoAnchor page.anchors with
              | none =>
                (Outcome.result Status.UnrecognizedPatternError none,
                 [NetCall.urlopenCall siteUrl])
              | some anchor =>
                let onclickText := anchor.onclick.getD ""
                let videoPageUrl := buildVideoPageUrl client onclickText
                match env.parse_video_page_url videoPageUrl client with
                | DelegateResult.raiseHttpError =>
                  (Outcome.result Status.ResourceAccessError none,
                   [NetCall.urlopenCall siteUrl,
                    NetCall.delegateCall videoPageUrl client])
                | DelegateResult.raiseUrlError =>
                  (Outcome.uncaughtUrlError,
                   [NetCall.urlopenCall siteUrl,
                    NetCall.delegateCall videoPageUrl client])
                | DelegateResult.ok none =>
                  (Outcome.notImplementedError
                    ("get_legistar_content_uris() needs attention. " ++
                     "Unrecognized video web page HTML structure: " ++ videoPageUrl),
                   [NetCall.urlopenCall siteUrl,
                    NetCall.delegateCall videoPageUrl client])
                | DelegateResult.ok (some uris) =>
                  (Outcome.result Status.Ok (some uris),
                   [NetCall.urlopenCall siteUrl,
                    NetCall.delegateCall videoPageUrl client])

/-! ### Concrete fixtures used to instantiate the theorems -/

/-- A concrete environment with no usable network: every fetch fails with a
transport error, the delegate finds nothing, the normalizer is the identity. -/
def envOffline : Env where
  urlopen := fun _ => FetchResult.transportErr TransportError.urlError
  parse_video_page_url := fun _ _ => DelegateResult.ok none
  str_simplified := fun s => s
  urlsplit_netloc := fun _ => none

/-- The anchor element documented in the source comment (lines 143-149). -/
def detailAnchor : Anchor where
  id := "ctl00_ContentPlaceHolder1_hypVideo"
  onclick := some "window.open('Video.aspx?ID1=8844','video');return false;"

/-- A detail page holding `detailAnchor` and benign text. -/
def detailPage : Page where
  text := "Meeting details Video"
  anchors := [detailAnchor]

/-- An event record with an empty direct-video field and a detail-page URL. -/
def evSite : EventRecord :=
  [(LEGISTAR_SESSION_VIDEO_URI, some ""),
   (LEGISTAR_EV_SITE_URL, some "https://olympia.legistar.com/MeetingDetail.aspx?ID=1")]

/-- A concrete environment whose fetch returns `detailPage` and whose
delegate answers with the given result. -/
def envOkPage (d : DelegateResult) : Env where
  urlopen := fun _ => FetchResult.ok detailPage
  parse_video_page_url := fun _ _ => d
  str_simplified := fun s => s
  urlsplit_netloc := fun _ => some "olympia.legistar.com"

/-! ### Theorems for the claims -/

/-- C1: if the direct-video field (`EventVideoPath`) is present and
non-empty, the resolver performs no network access (empty call trace) and
returns `Ok` with exactly one URI pair whose `video_uri` is the
`str_simplified` value of that field and whose `caption_uri` is null. -/
theorem C1_direct_video_short_circuits (env : Env) (client : String)
    (ev : EventRecord) (v : String)
    (hv : ev.lookup LEGISTAR_SESSION_VIDEO_URI = some (some v))
    (hne : v ≠ "") :
    get_legistar_content_uris env client ev =
      (Outcome.result Status.Ok
        (some [{ video_uri := env.str_simplified v, caption_uri := none }]),
       []) := by
  unfold get_legistar_content_uris
  rw [hv]
  simp [pyTruthy, bne_iff_ne, hne]

/-- Witness for C1 at a concrete record. -/
theorem C1_witness :
    get_legistar_content_uris envOffline "olympia"
      [(LEGISTAR_SESSION_VIDEO_URI, some "https://v.example/m.mp4")] =
      (Outcome.result Status.Ok
        (some [{ video_uri := "https://v.example/m.mp4", caption_uri := none }]),
       []) := by
  have h := C1_direct_video_short_circuits envOffline "olympia"
    [(LEGISTAR_SESSION_VIDEO_URI, some "https://v.example/m.mp4")]
    "https://v.example/m.mp4" rfl (by decide)
  simpa [envOffline] using h

/-- C7: when the direct-video field and the detail-page-URL field are both
present but empty (falsy), the resolver returns `UnrecognizedPatternError`
with no URIs and makes no network calls. -/
theorem C7_both_empty_no_network (env : Env) (client : String)
    (ev : EventRecord) (v u : Option String)
    (hv : ev.lookup LEGISTAR_SESSION_VIDEO_URI = some v)
    (hvf : pyTruthy v = false)
    (hu : ev.lookup LEGISTAR_EV_SITE_URL = some u)
    (huf : pyTruthy u = false) :
    get_legistar_content_uris env client ev =
      (Outcome.result Status.UnrecognizedPatternError none, []) := by
  unfold get_legistar_content_uris
  rw [hv]
  simp [hvf, hu, huf]

/-- Witness for C7 at a concrete record with both fields empty. -/
theorem C7_witness :
    get_legistar_content_uris envOffline "olympia"
      [(LEGISTAR_SESSION_VIDEO_URI, some ""),
       (LEGISTAR_EV_SITE_URL, some "")] =
      (Outcome.result Status.UnrecognizedPatternError none, []) := by
  exact C7_both_empty_no_network envOffline "olympia"
    [(LEGISTAR_SESSION_VIDEO_URI, some ""), (LEGISTAR_EV_SITE_URL, some "")]
    (some "") (some "") rfl rfl rfl rfl

/-- C8 counterexample: on a record with no keys at all, subscript access on
the direct-video key raises `KeyError` — the resolver does not behave as in
the present-but-empty case (`UnrecognizedPatternError`). -/
theorem C8_counterexample :
    get_legistar_content_uris envOffline "olympia" [] =
      (Outcome.keyError LEGISTAR_SESSION_VIDEO_URI, []) ∧
    Outcome.keyError LEGISTAR_SESSION_VIDEO_URI ≠
      Outcome.result Status.UnrecognizedPatternError none := by
  exact ⟨rfl, by decide⟩

/-- C8 amended: subscript access raises `KeyError` when a key is absent.  If
the direct-video key is missing the call raises `KeyError` on it; if the
direct-video field is present but falsy and the detail-page-URL key is
missing, the call raises `KeyError` on that key.  Only present-but-empty
fields get the documented empty-field behavior. -/
theorem C8_absent_key_raises (env : Env) (client : String)
    (ev1 ev2 : EventRecord) (v : Option String)
    (h1 : ev1.lookup LEGISTAR_SESSION_VIDEO_URI = none)
    (h2 : ev2.lookup LEGISTAR_SESSION_VIDEO_URI = some v)
    (h2f : pyTruthy v = false)
    (h2u : ev2.lookup LEGISTAR_EV_SITE_URL = none) :
    get_legistar_content_uris env client ev1 =
      (Outcome.keyError LEGISTAR_SESSION_VIDEO_URI, []) ∧
    get_legistar_content_uris env client ev2 =
      (Outcome.keyError LEGISTAR_EV_SITE_URL, []) := by
  constructor
  · unfold get_legistar_content_uris
    rw [h1]
  · unfold get_legistar_content_uris
    rw [h2]
    simp [h2f, h2u]

/-- Witness for the amended C8 at concrete records. -/
theorem C8_witness :
    get_legistar_content_uris envOffline "olympia" [] =
      (Outcome.keyError LEGISTAR_SESSION_VIDEO_URI, []) ∧
    get_legistar_content_uris envOffline "olympia"
      [(LEGISTAR_SESSION_VIDEO_URI, some "")] =
      (Outcome.keyError LEGISTAR_EV_SITE_URL, []) := by
  exact C8_absent_key_raises envOffline "olympia" []
    [(LEGISTAR_SESSION_VIDEO_URI, some "")] (some "") rfl rfl rfl rfl

/-- C9: each invocation makes at most two outbound network calls (the
detail-page fetch and the delegate call); the result is a pure function of
the arguments and the oracle responses, with no other state. -/
theorem C9_at_most_two_network_calls (env : Env) (client : String)
    (ev : EventRecord) :
    (get_legistar_content_uris env client ev).2.length ≤ 2 := by
  unfold get_legistar_content_uris
  dsimp only
  repeat' split
  all_goals simp

/-- C5: when the fetched page's text contains "server error" (any case, any
position), the resolver raises `ConnectionError` whose message carries the
host portion of the detail-page URL and the `str_simplified` page text; it
does not return a status result (in particular not `ResourceAccessError`). -/
theorem C5_server_error_raises (env : Env) (client : String)
    (ev : EventRecord) (v : Option String) (siteUrl host : String)
    (page : Page)
    (hv : ev.lookup LEGISTAR_SESSION_VIDEO_URI = some v)
    (hvf : pyTruthy v = false)
    (hu : ev.lookup LEGISTAR_EV_SITE_URL = some (some siteUrl))
    (hne : siteUrl ≠ "")
    (hfetch : env.urlopen siteUrl = FetchResult.ok page)
    (hsrv : pyContains (pyLower page.text) "server error" = true)
    (hhost : env.urlsplit_netloc siteUrl = some host) :
    get_legistar_content_uris env client ev =
      (Outcome.connectionError
        (host ++ " appears to be down: " ++ env.str_simplified page.text),
       [NetCall.urlopenCall siteUrl]) := by
  have hsite : pyTruthy (some siteUrl) = true := by
    simp [pyTruthy, bne_iff_ne, hne]
  unfold get_legistar_content_uris
  rw [hv]
  simp [hvf, hu, hsite, hfetch, hsrv, hhost]

/-- Witness for C5 at a concrete record and page. -/
theorem C5_witness :
    get_legistar_content_uris
      { urlopen := fun _ =>
          FetchResult.ok { text := "Oops: Server Error.", anchors := [] }
        parse_video_page_url := fun _ _ => DelegateResult.ok none
        str_simplified := fun s => s
        urlsplit_netloc := fun _ => some "olympia.legistar.com" }
      "olympia" evSite =
      (Outcome.connectionError
        "olympia.legistar.com appears to be down: Oops: Server Error.",
       [NetCall.urlopenCall
          "https://olympia.legistar.com/MeetingDetail.aspx?ID=1"]) := by
  have h := C5_server_error_raises
    { urlopen := fun _ =>
        FetchResult.ok { text := "Oops: Server Error.", anchors := [] }
      parse_video_page_url := fun _ _ => DelegateResult.ok none
      str_simplified := fun s => s
      urlsplit_netloc := fun _ => some "olympia.legistar.com" }
    "olympia" evSite (some "")
    "https://olympia.legistar.com/MeetingDetail.aspx?ID=1"
    "olympia.legistar.com" { text := "Oops: Server Error.", anchors := [] }
    rfl rfl rfl (by decide) rfl (by rfl) rfl
  simpa using h

/-- C6: when the fetched page (without "server error" text) has no anchor
that both matches the id pattern and carries an onclick attribute, the
resolver returns `UnrecognizedPatternError` with no URIs — a status result,
not an exception. -/
theorem C6_no_anchor_unrecognized (env : Env) (client : String)
    (ev : EventRecord) (v : Option String) (siteUrl : String) (page : Page)
    (hv : ev.lookup LEGISTAR_SESSION_VIDEO_URI = some v)
    (hvf : pyTruthy v = false)
    (hu : ev.lookup LEGISTAR_EV_SITE_URL = some (some siteUrl))
    (hne : siteUrl ≠ "")
    (hfetch : env.urlopen siteUrl = FetchResult.ok page)
    (hsrv : pyContains (pyLower page.text) "server error" = false)
    (hnone : ∀ a ∈ page.anchors, anchorMatches a = false) :
    get_legistar_content_uris env client ev =
      (Outcome.result Status.UnrecognizedPatternError none,
       [NetCall.urlopenCall siteUrl]) := by
  have hfind : findVideoAnchor page.anchors = none := by
    unfold findVideoAnchor
    rw [List.find?_eq_none]
    intro a ha
    simp [hnone a ha]
  have hsite : pyTruthy (some siteUrl) = true := by
    simp [pyTruthy, bne_iff_ne, hne]
  unfold get_legistar_content_uris
  rw [hv]
  simp [hvf, hu, hsite, hfetch, hsrv, hfind]

/-- Witness for C6 at a concrete page whose only anchor has a non-matching
id. -/
theorem C6_witness :
    get_legistar_content_uris
      { urlopen := fun _ =>
          FetchResult.ok
            { text := "Meeting details",
              anchors := [{ id := "ctl00_Nothing", onclick := some "x()" }] }
        parse_video_page_url := fun _ _ => DelegateResult.ok none
        str_simplified := fun s => s
        urlsplit_netloc := fun _ => none }
      "olympia" evSite =
      (Outcome.result Status.UnrecognizedPatternError none,
       [NetCall.urlopenCall
          "https://olympia.legistar.com/MeetingDetail.aspx?ID=1"]) := by
  exact C6_no_anchor_unrecognized
    { urlopen := fun _ =>
        FetchResult.ok
          { text := "Meeting details",
            anchors := [{ id := "ctl00_Nothing", onclick := some "x()" }] }
      parse_video_page_url := fun _ _ => DelegateResult.ok none
      str_simplified := fun s => s
      urlsplit_netloc := fun _ => none }
    "olympia" evSite (some "")
    "https://olympia.legistar.com/MeetingDetail.aspx?ID=1"
    { text := "Meeting details",
      anchors := [{ id := "ctl00_Nothing", onclick := some "x()" }] }
    rfl rfl rfl (by decide) rfl (by rfl)
    (by intro a ha; simp at ha; subst ha; decide)

/-- Helper: with both fields read, a successful fetch of a page without
"server error" text, and the video anchor found, the resolver's answer is
decided by the delegate's result on the built secondary URL, and both
network calls appear in the trace. -/
theorem get_reaches_delegate (env : Env) (client : String)
    (ev : EventRecord) (v : Option String) (siteUrl : String) (page : Page)
    (anchor : Anchor)
    (hv : ev.lookup LEGISTAR_SESSION_VIDEO_URI = some v)
    (hvf : pyTruthy v = false)
    (hu : ev.lookup LEGISTAR_EV_SITE_URL = some (some siteUrl))
    (hne : siteUrl ≠ "")
    (hfetch : env.urlopen siteUrl = FetchResult.ok page)
    (hsrv : pyContains (pyLower page.text) "server error" = false)
    (hfind : findVideoAnchor page.anchors = some anchor) :
    get_legistar_content_uris env client ev =
      (match env.parse_video_page_url
          (buildVideoPageUrl client (anchor.onclick.getD "")) client with
       | DelegateResult.raiseHttpError =>
         Outcome.result Status.ResourceAccessError none
       | DelegateResult.raiseUrlError => Outcome.uncaughtUrlError
       | DelegateResult.ok none =>
         Outcome.notImplementedError
           ("get_legistar_content_uris() needs attention. " ++
            "Unrecognized video web page HTML structure: " ++
            buildVideoPageUrl client (anchor.onclick.getD ""))
       | DelegateResult.ok (some uris) => Outcome.result Status.Ok (some uris),
       [NetCall.urlopenCall siteUrl,
        NetCall.delegateCall
          (buildVideoPageUrl client (anchor.onclick.getD "")) client]) := by
  have hsite : pyTruthy (some siteUrl) = true := by
    simp [pyTruthy, bne_iff_ne, hne]
  unfold get_legistar_content_uris
  rw [hv]
  cases hdel : env.parse_video_page_url
      (buildVideoPageUrl client (anchor.onclick.getD "")) client with
  | raiseHttpError => simp [hvf, hu, hsite, hfetch, hsrv, hfind, hdel]
  | raiseUrlError => simp [hvf, hu, hsite, hfetch, hsrv, hfind, hdel]
  | ok uris => cases uris with
    | none => simp [hvf, hu, hsite, hfetch, hsrv, hfind, hdel]
    | some l => simp [hvf, hu, hsite, hfetch, hsrv, hfind, hdel]

/-- C2: for a fetched page whose matching video anchor is the documented one
(id `ctl00_ContentPlaceHolder1_hypVideo`, onclick
`window.open('Video.aspx?ID1=8844','video');return false;`) and client
"olympia", the secondary URL passed to the delegate — fixed scheme, client
id, fixed domain suffix, then the first single-quoted token of the click
handler up to the `',` delimiter — is exactly
`https://olympia.legistar.com/Video.aspx?ID1=8844`. -/
theorem C2_secondary_url_exact (env : Env) (ev : EventRecord)
    (v : Option String) (siteUrl : String) (page : Page)
    (hv : ev.lookup LEGISTAR_SESSION_VIDEO_URI = some v)
    (hvf : pyTruthy v = false)
    (hu : ev.lookup LEGISTAR_EV_SITE_URL = some (some siteUrl))
    (hne : siteUrl ≠ "")
    (hfetch : env.urlopen siteUrl = FetchResult.ok page)
    (hsrv : pyContains (pyLower page.text) "server error" = false)
    (hanch : page.anchors = [detailAnchor]) :
    (get_legistar_content_uris env "olympia" ev).2 =
      [NetCall.urlopenCall siteUrl,
       NetCall.delegateCall
         "https://olympia.legistar.com/Video.aspx?ID1=8844" "olympia"] := by
  have hfind : findVideoAnchor page.anchors = some detailAnchor := by
    rw [hanch]
    decide
  have hurl : buildVideoPageUrl "olympia" (detailAnchor.onclick.getD "") =
      "https://olympia.legistar.com/Video.aspx?ID1=8844" := by decide
  rw [get_reaches_delegate env "olympia" ev v siteUrl page detailAnchor
    hv hvf hu hne hfetch hsrv hfind, hurl]

/-- Witness for C2 at a concrete page carrying the documented anchor. -/
theorem C2_witness :
    (get_legistar_content_uris (envOkPage (DelegateResult.ok none))
      "olympia" evSite).2 =
      [NetCall.urlopenCall
         "https://olympia.legistar.com/MeetingDetail.aspx?ID=1",
       NetCall.delegateCall
         "https://olympia.legistar.com/Video.aspx?ID1=8844" "olympia"] := by
  exact C2_secondary_url_exact (envOkPage (DelegateResult.ok none)) evSite
    (some "") "https://olympia.legistar.com/MeetingDetail.aspx?ID=1"
    detailPage rfl rfl rfl (by decide) rfl (by rfl) rfl

/-- C3 counterexample: with the delegate raising a plain `URLError` (a
transport-layer failure that is not an `HTTPError`), the secondary fetch
does not yield `ResourceAccessError`: the exception propagates uncaught,
so the two fetch sites do not behave identically. -/
theorem C3_counterexample :
    (get_legistar_content_uris (envOkPage DelegateResult.raiseUrlError)
      "olympia" evSite).1 = Outcome.uncaughtUrlError ∧
    Outcome.uncaughtUrlError ≠
      Outcome.result Status.ResourceAccessError none := by
  constructor
  · rfl
  · decide

/-- C3 amended: a transport failure of either kind at the first-page fetch
yields `ResourceAccessError`; at the secondary fetch only `HTTPError` does,
while a plain `URLError` raised by the delegate propagates as an uncaught
exception. -/
theorem C3_transport_failure_asymmetry (env1 env2 env3 : Env)
    (client : String) (ev : EventRecord) (v : Option String)
    (siteUrl : String) (e : TransportError) (page : Page) (anchor : Anchor)
    (hv : ev.lookup LEGISTAR_SESSION_VIDEO_URI = some v)
    (hvf : pyTruthy v = false)
    (hu : ev.lookup LEGISTAR_EV_SITE_URL = some (some siteUrl))
    (hne : siteUrl ≠ "")
    (h1 : env1.urlopen siteUrl = FetchResult.transportErr e)
    (h2f : env2.urlopen siteUrl = FetchResult.ok page)
    (hsrv : pyContains (pyLower page.text) "server error" = false)
    (hfind : findVideoAnchor page.anchors = some anchor)
    (h2d : env2.parse_video_page_url
      (buildVideoPageUrl client (anchor.onclick.getD "")) client =
      DelegateResult.raiseHttpError)
    (h3f : env3.urlopen siteUrl = FetchResult.ok page)
    (h3d : env3.parse_video_page_url
      (buildVideoPageUrl client (anchor.onclick.getD "")) client =
      DelegateResult.raiseUrlError) :
    get_legistar_content_uris env1 client ev =
      (Outcome.result Status.ResourceAccessError none,
       [NetCall.urlopenCall siteUrl]) ∧
    (get_legistar_content_uris env2 client ev).1 =
      Outcome.result Status.ResourceAccessError none ∧
    (get_legistar_content_uris env3 client ev).1 =
      Outcome.uncaughtUrlError := by
  have hsite : pyTruthy (some siteUrl) = true := by
    simp [pyTruthy, bne_iff_ne, hne]
  refine ⟨?_, ?_, ?_⟩
  · unfold get_legistar_content_uris
    rw [hv]
    simp [hvf, hu, hsite, h1]
  · rw [get_reaches_delegate env2 client ev v siteUrl page anchor
      hv hvf hu hne h2f hsrv hfind]
    rw [h2d]
  · rw [get_reaches_delegate env3 client ev v siteUrl page anchor
      hv hvf hu hne h3f hsrv hfind]
    rw [h3d]

/-- Witness for the amended C3 at concrete environments. -/
theorem C3_witness :
    get_legistar_content_uris envOffline "olympia" evSite =
      (Outcome.result Status.ResourceAccessError none,
       [NetCall.urlopenCall
          "https://olympia.legistar.com/MeetingDetail.aspx?ID=1"]) ∧
    (get_legistar_content_uris (envOkPage DelegateResult.raiseHttpError)
      "olympia" evSite).1 =
      Outcome.result Status.ResourceAccessError none ∧
    (get_legistar_content_uris (envOkPage DelegateResult.raiseUrlError)
      "olympia" evSite).1 = Outcome.uncaughtUrlError := by
  exact C3_transport_failure_asymmetry envOffline
    (envOkPage DelegateResult.raiseHttpError)
    (envOkPage DelegateResult.raiseUrlError) "olympia" evSite (some "")
    "https://olympia.legistar.com/MeetingDetail.aspx?ID=1"
    TransportError.urlError detailPage detailAnchor
    rfl rfl rfl (by decide) rfl rfl (by rfl) rfl rfl rfl rfl

/-- C4 counterexample: when the delegate completes with an empty (non-null)
URI list, the resolver does not raise — it returns the status result
`(Ok, [])`. -/
theorem C4_counterexample :
    (get_legistar_content_uris (envOkPage (DelegateResult.ok (some [])))
      "olympia" evSite).1 = Outcome.result Status.Ok (some []) ∧
    Outcome.result Status.Ok (some ([] : List ContentURIs)) ≠
      Outcome.notImplementedError
        ("get_legistar_content_uris() needs attention. " ++
         "Unrecognized video web page HTML structure: " ++
         "https://olympia.legistar.com/Video.aspx?ID1=8844") := by
  constructor
  · rfl
  · decide

/-- C4 amended: the resolver raises `NotImplementedError` (message carrying
the secondary URL) exactly when the delegate returns null (`None`); a
completed delegate call returning an empty list is passed through as a
status result `Ok` with the empty list. -/
theorem C4_null_delegate_raises (env1 env2 : Env) (client : String)
    (ev : EventRecord) (v : Option String) (siteUrl : String) (page : Page)
    (anchor : Anchor)
    (hv : ev.lookup LEGISTAR_SESSION_VIDEO_URI = some v)
    (hvf : pyTruthy v = false)
    (hu : ev.lookup LEGISTAR_EV_SITE_URL = some (some siteUrl))
    (hne : siteUrl ≠ "")
    (h1f : env1.urlopen siteUrl = FetchResult.ok page)
    (hsrv : pyContains (pyLower page.text) "server error" = false)
    (hfind : findVideoAnchor page.anchors = some anchor)
    (h1d : env1.parse_video_page_url
      (buildVideoPageUrl client (anchor.onclick.getD "")) client =
      DelegateResult.ok none)
    (h2f : env2.urlopen siteUrl = FetchResult.ok page)
    (h2d : env2.parse_video_page_url
      (buildVideoPageUrl client (anchor.onclick.getD "")) client =
      DelegateResult.ok (some [])) :
    get_legistar_content_uris env1 client ev =
      (Outcome.notImplementedError
        ("get_legistar_content_uris() needs attention. " ++
         "Unrecognized video web page HTML structure: " ++
         buildVideoPageUrl client (anchor.onclick.getD "")),
       [NetCall.urlopenCall siteUrl,
        NetCall.delegateCall
          (buildVideoPageUrl client (anchor.onclick.getD "")) client]) ∧
    get_legistar_content_uris env2 client ev =
      (Outcome.result Status.Ok (some []),
       [NetCall.urlopenCall siteUrl,
        NetCall.delegateCall
          (buildVideoPageUrl client (anchor.onclick.getD "")) client]) := by
  constructor
  · rw [get_reaches_delegate env1 client ev v siteUrl page anchor
      hv hvf hu hne h1f hsrv hfind]
    rw [h1d]
  · rw [get_reaches_delegate env2 client ev v siteUrl page anchor
      hv hvf hu hne h2f hsrv hfind]
    rw [h2d]

/-- Witness for the amended C4 at concrete environments. -/
theorem C4_witness :
    get_legistar_content_uris (envOkPage (DelegateResult.ok none))
      "olympia" evSite =
      (Outcome.notImplementedError
        ("get_legistar_content_uris() needs attention. " ++
         "Unrecognized video web page HTML structure: " ++
         buildVideoPageUrl "olympia" (detailAnchor.onclick.getD "")),
       [NetCall.urlopenCall
          "https://olympia.legistar.com/MeetingDetail.aspx?ID=1",
        NetCall.delegateCall
          (buildVideoPageUrl "olympia" (detailAnchor.onclick.getD ""))
          "olympia"]) ∧
    get_legistar_content_uris (envOkPage (DelegateResult.ok (some [])))
      "olympia" evSite =
      (Outcome.result Status.Ok (some []),
       [NetCall.urlopenCall
          "https://olympia.legistar.com/MeetingDetail.aspx?ID=1",
        NetCall.delegateCall
          (buildVideoPageUrl "olympia" (detailAnchor.onclick.getD ""))
          "olympia"]) := by
  exact C4_null_delegate_raises (envOkPage (DelegateResult.ok none))
    (envOkPage (DelegateResult.ok (some []))) "olympia" evSite (some "")
    "https://olympia.legistar.com/MeetingDetail.aspx?ID=1" detailPage
    detailAnchor rfl rfl rfl (by decide) rfl (by rfl) rfl rfl rfl rfl

/-- Helper: a hit reported by `pyFindAux` for a nonempty needle lies inside
the scanned list. -/
theorem pyFindAux_lt_length (sub : List Char) (hsub : sub ≠ []) :
    ∀ (cs : List Char) (i j : Nat), pyFindAux sub cs i = some j →
      j < i + cs.length := by
  intro cs
  induction cs with
  | nil =>
    intro i j h
    unfold pyFindAux at h
    rw [if_neg (by simp [List.isEmpty_iff, hsub])] at h
    exact absurd h (by simp)
  | cons c rest ih =>
    intro i j h
    unfold pyFindAux at h
    by_cases hp : sub.isPrefixOf (c :: rest) = true
    · rw [if_pos hp] at h
      have hj : i = j := by simpa using h
      simp [← hj]
    · rw [if_neg hp] at h
      have := ih (i + 1) j h
      simp only [List.length_cons]
      omega

/-- Helper: `pyFind` for a nonempty needle, when it does not return -1,
returns an index inside the string. -/
theorem pyFind_lt (s sub : String) (idx : Nat) (hsub : sub ≠ "")
    (h : pyFind s sub = (idx : Int)) : idx < s.length := by
  have hsubd : sub.data ≠ [] := fun hd => hsub (String.ext hd)
  unfold pyFind at h
  cases haux : pyFindAux sub.data s.data 0 with
  | none =>
    rw [haux] at h
    dsimp only at h
    omega
  | some i =>
    rw [haux] at h
    dsimp only at h
    have hij : i = idx := by exact_mod_cast h
    have hb := pyFindAux_lt_length sub.data hsubd s.data 0 i haux
    have hlen : s.length = s.data.length := rfl
    subst hij
    rw [hlen]
    omega

/-- Helper: slicing from a nonnegative index `a ≤ len` to `-1` on a
nonempty string keeps the characters from `a` up to, but excluding, the
last one. -/
theorem pySlice_to_neg_one (s : String) (a : Nat) (ha : a ≤ s.length)
    (hlen : 1 ≤ s.length) :
    pySlice s (a : Int) (-1) =
      String.mk ((s.data.take (s.length - 1)).drop a) := by
  simp only [pySlice]
  rw [List.drop_take]
  have h1 : (if ((a : Int)) < 0 then
      max ((s.length : Int) + (a : Int)) 0
    else min (a : Int) (s.length : Int)).toNat = a := by
    rw [if_neg (by omega)]
    omega
  have h2 : (if ((-1 : Int)) < 0 then
      max ((s.length : Int) + (-1 : Int)) 0
    else min (-1 : Int) (s.length : Int)).toNat = s.length - 1 := by
    rw [if_pos (by omega)]
    omega
  rw [h1, h2]

/-- C10: when the matching anchor's onclick text contains a single quote but
no `',` delimiter, extraction reports no error: the delimiter search yields
-1, the extracted token is the onclick text from just after the first quote
up to but excluding its last character, and the secondary URL built from
that truncated token is what the delegate fetches. -/
theorem C10_missing_delimiter_truncates (env : Env) (client : String)
    (ev : EventRecord) (v : Option String) (siteUrl : String) (page : Page)
    (aid o : String) (idx : Nat)
    (hv : ev.lookup LEGISTAR_SESSION_VIDEO_URI = some v)
    (hvf : pyTruthy v = false)
    (hu : ev.lookup LEGISTAR_EV_SITE_URL = some (some siteUrl))
    (hne : siteUrl ≠ "")
    (hfetch : env.urlopen siteUrl = FetchResult.ok page)
    (hsrv : pyContains (pyLower page.text) "server error" = false)
    (hfind : findVideoAnchor page.anchors =
      some { id := aid, onclick := some o })
    (hq : pyFind o "'" = (idx : Int))
    (hnd : pyFind o "'," = -1) :
    (get_legistar_content_uris env client ev).2 =
      [NetCall.urlopenCall siteUrl,
       NetCall.delegateCall
         ("https://" ++ client ++ ".legistar.com/" ++
          String.mk ((o.data.take (o.length - 1)).drop (idx + 1))) client] := by
  have hidx : idx < o.length := pyFind_lt o "'" idx (by decide) hq
  have hurl : buildVideoPageUrl client o =
      "https://" ++ client ++ ".legistar.com/" ++
        String.mk ((o.data.take (o.length - 1)).drop (idx + 1)) := by
    unfold buildVideoPageUrl
    dsimp only
    rw [hq, hnd]
    have hcast : ((idx : Int) + 1) = (((idx + 1 : Nat)) : Int) := by
      push_cast
      ring
    rw [hcast, pySlice_to_neg_one o (idx + 1) (by omega) (by omega)]
  rw [get_reaches_delegate env client ev v siteUrl page ⟨aid, some o⟩
    hv hvf hu hne hfetch hsrv hfind]
  simp only [Option.getD_some]
  rw [hurl]

/-- Witness for C10: the onclick text has an opening quote but no closing
delimiter, so the trailing character is truncated from the token. -/
theorem C10_witness :
    (get_legistar_content_uris
      { urlopen := fun _ =>
          FetchResult.ok
            { text := "Meeting details",
              anchors := [{ id := "ctl00_ContentPlaceHolder1_hypVideo",
                            onclick := some "window.open('Video.aspx?ID1=8844)" }] }
        parse_video_page_url := fun _ _ => DelegateResult.ok none
        str_simplified := fun s => s
        urlsplit_netloc := fun _ => none }
      "olympia" evSite).2 =
      [NetCall.urlopenCall
         "https://olympia.legistar.com/MeetingDetail.aspx?ID=1",
       NetCall.delegateCall
         "https://olympia.legistar.com/Video.aspx?ID1=8844" "olympia"] := by
  have h := C10_missing_delimiter_truncates
    { urlopen := fun _ =>
        FetchResult.ok
          { text := "Meeting details",
            anchors := [{ id := "ctl00_ContentPlaceHolder1_hypVideo",
                          onclick := some "window.open('Video.aspx?ID1=8844)" }] }
      parse_video_page_url := fun _ _ => DelegateResult.ok none
      str_simplified := fun s => s
      urlsplit_netloc := fun _ => none }
    "olympia" evSite (some "")
    "https://olympia.legistar.com/MeetingDetail.aspx?ID=1"
    { text := "Meeting details",
      anchors := [{ id := "ctl00_ContentPlaceHolder1_hypVideo",
                    onclick := some "window.open('Video.aspx?ID1=8844)" }] }
    "ctl00_ContentPlaceHolder1_hypVideo"
    "window.open('Video.aspx?ID1=8844)" 12
    rfl rfl rfl (by decide) rfl (by rfl) (by decide) (by decide) (by decide)
  rw [h]
  decide

end Olympia
